import Mathlib

/-!
# Verification of the Arcium agentic wallet programs

Shallow embedding of the repository's four Rust/Anchor source files:

* `src/agent-vault/programs/agent-vault/src/lib.rs` — ledger vault with
  deposit/withdraw, agent risk state and a gated withdrawal path;
* `src/agentic_wallet_mxe/programs/agentic_wallet_mxe/src/lib.rs` — the
  Solana-side orchestration program with its two result callbacks;
* `src/agentic_wallet_mxe/encrypted-ixs/src/lib.rs` and
  `src/circuits/src/lib.rs` — the Arcis circuits (the latter consists of
  unimplemented placeholder bodies).

Machine integers are modelled as `Nat` (u8/u32/u64/u128 values) and `Int`
(i64 timestamps); overflow is explicit through the `checked_add` /
`checked_sub` helpers where the source uses Rust checked arithmetic.
Solana `Pubkey` values are modelled as `Nat`. Encryption wrappers
(`Enc<Shared, T>`, `to_arcis`, `from_arcis`) are identities at the value
level and are elided.
-/

/-- Largest value representable in a Rust `u64`. -/
def U64_MAX : Nat := 2 ^ 64 - 1

/-- Rust `u64::checked_add`: `none` exactly when the mathematical sum
exceeds `U64_MAX`. -/
def checked_add (a b : Nat) : Option Nat :=
  if a + b ≤ U64_MAX then some (a + b) else none

/-- Rust `u64::checked_sub`: `none` exactly when the subtrahend exceeds
the minuend. -/
def checked_sub (a b : Nat) : Option Nat :=
  if b ≤ a then some (a - b) else none

/-! ## agent-vault data model (`#[account]` structs and `#[error_code]`) -/

/-- The `Vault` account: owner pubkey and tracked lamport balance. -/
structure Vault where
  owner : Nat
  balance : Nat
deriving DecidableEq, Repr

/-- The `AgentState` account: owner, risk score, execution flag and the
timestamp of the last gated action. -/
structure AgentState where
  owner : Nat
  risk_score : Nat
  execution_enabled : Bool
  last_action_timestamp : Int
deriving DecidableEq, Repr

/-- The agent-vault program's `ErrorCode` enum. -/
inductive ErrorCode where
  | InsufficientFunds
  | Unauthorized
  | InvalidRiskScore
  | ExecutionBlocked
  | ExecutionTimeout
  | HighRisk
  | Overflow
  | Underflow
deriving DecidableEq, Repr

/-- Outcome of an instruction that can fail either with a program
`ErrorCode` or with an error propagated from a cross-program invocation
(the `invoke(...)?` in `deposit`). -/
inductive TxError where
  | program (e : ErrorCode)
  | cpi
deriving DecidableEq, Repr

/-! ## agent-vault instructions -/

/-- `initialize_vault`: fresh vault owned by the signer with balance 0. -/
def initialize_vault (owner : Nat) : Vault :=
  { owner := owner, balance := 0 }

/-- `deposit`: requires the signer to be the vault owner, performs the
lamport transfer CPI (its success is the `transfer_ok` parameter), then
adds `amount` to the tracked balance with `checked_add`, failing with
`Overflow` when the sum exceeds `U64_MAX`. -/
def deposit (vault : Vault) (caller : Nat) (transfer_ok : Bool) (amount : Nat) :
    Except TxError Vault :=
  if vault.owner = caller then
    if transfer_ok then
      match checked_add vault.balance amount with
      | some b => .ok { vault with balance := b }
      | none => .error (.program .Overflow)
    else .error .cpi
  else .error (.program .Unauthorized)

/-- `withdraw`: owner check, balance sufficiency check, then
`checked_sub` on the tracked balance (the raw lamport moves mirror the
balance change and are elided). -/
def withdraw (vault : Vault) (caller : Nat) (amount : Nat) :
    Except ErrorCode Vault :=
  if vault.owner = caller then
    if vault.balance ≥ amount then
      match checked_sub vault.balance amount with
      | some b => .ok { vault with balance := b }
      | none => .error .Underflow
    else .error .InsufficientFunds
  else .error .Unauthorized

/-- `initialize_agent`: risk score 50, execution enabled, last-action
timestamp set to the current clock. -/
def initialize_agent (owner : Nat) (now : Int) : AgentState :=
  { owner := owner
    risk_score := 50
    execution_enabled := true
    last_action_timestamp := now }

/-- `evaluate_agent_action`: validates `risk_score ≤ 100`, checks
ownership, then stores the score and recomputes
`execution_enabled = (risk_score ≤ 80)`. -/
def evaluate_agent_action (state : AgentState) (caller : Nat)
    (risk_score : Nat) : Except ErrorCode AgentState :=
  if risk_score ≤ 100 then
    if state.owner = caller then
      .ok { state with
              risk_score := risk_score
              execution_enabled := decide (risk_score ≤ 80) }
    else .error .Unauthorized
  else .error .InvalidRiskScore

/-- `gated_withdraw`: ownership, execution flag, risk threshold,
freshness window and balance checks in source order, then the balance
update via `checked_sub` and the timestamp refresh. -/
def gated_withdraw (state : AgentState) (vault : Vault) (caller : Nat)
    (now : Int) (amount : Nat) : Except ErrorCode (AgentState × Vault) :=
  if state.owner = caller then
    if state.execution_enabled then
      if state.risk_score ≤ 80 then
        if now - state.last_action_timestamp < 3600 then
          if vault.balance ≥ amount then
            match checked_sub vault.balance amount with
            | some b =>
                .ok ({ state with last_action_timestamp := now },
                     { vault with balance := b })
            | none => .error .Underflow
          else .error .InsufficientFunds
        else .error .ExecutionTimeout
      else .error .HighRisk
    else .error .ExecutionBlocked
  else .error .Unauthorized

/-! ## circuits (`src/circuits/src/lib.rs`) -/

/-- A partial key share held by one Arx node. -/
structure KeyShare where
  share : Nat
  node_index : Nat
  threshold : Nat
deriving DecidableEq, Repr

/-- A trade instruction (`action`, `amount`, `token_id`). -/
structure TradeInstruction where
  action : Nat
  amount : Nat
  token_id : Nat
deriving DecidableEq, Repr

/-- A signing request: 32-byte transaction hash plus agent identifier. -/
structure SigningRequest where
  tx_hash : List Nat
  agent_id : Nat
deriving DecidableEq, Repr

/-- `distribute_key` as written in the source: the share vector is
created empty and returned unchanged — the Shamir polynomial evaluation
is an unimplemented TODO, and no `threshold`/`total_nodes` validation is
performed. -/
def distribute_key (encrypted_key : Nat) (threshold : Nat)
    (total_nodes : Nat) : List KeyShare :=
  let shares : List KeyShare := []
  shares

/-- `threshold_sign` as written in the source: the body is an
unimplemented TODO and the returned signature is the constant
`[0u8; 64]` placeholder, regardless of the request. -/
def threshold_sign (request : SigningRequest) : List Nat :=
  let signature := List.replicate 64 0
  signature

/-- `execute_encrypted_trade` as written in the source: validation and
transaction construction are unimplemented TODOs; the constant
`[0u8; 64]` placeholder is returned for every instruction, with no abort
path. -/
def execute_encrypted_trade (trade : TradeInstruction) : List Nat :=
  let signed_tx := List.replicate 64 0
  signed_tx

/-! ## agentic_wallet_mxe callbacks
(`src/agentic_wallet_mxe/programs/agentic_wallet_mxe/src/lib.rs`) -/

/-- Decoded output of the `sign_transaction` circuit: the encoded nonce
point `R` (32 bytes, `field_0`) and the scalar `S` (32 bytes,
`field_1`). -/
structure SignTransactionOutput where
  r_encoded : List Nat
  s : List Nat
deriving DecidableEq, Repr

/-- Decoded output of the `verify_agent_signature` circuit: the single
32-byte ciphertext (`ciphertexts[0]`) and the encryption nonce. -/
structure VerifyAgentSignatureOutput where
  ciphertext0 : List Nat
  nonce : Nat
deriving DecidableEq, Repr

/-- A delivered computation result together with its authenticity proof.
Modelled from the spec: the Arcium library type
`SignedComputationOutputs` carries the decoded payload and an
authenticity proof checked against the cluster's verification key; the
library code itself is not part of this repository, so the proof is
abstracted to the flag `proof_ok` recording whether it verifies. -/
structure SignedComputationOutputs (α : Type) where
  payload : α
  proof_ok : Bool
deriving DecidableEq, Repr

/-- Modelled from the spec: the Arcium library function
`SignedComputationOutputs::verify_output`, which returns the decoded
payload when the authenticity proof verifies against the cluster's
verification key and an error otherwise. -/
def verify_output {α : Type} (o : SignedComputationOutputs α) :
    Except Unit α :=
  if o.proof_ok then .ok o.payload else .error ()

/-- Events emitted by the agentic_wallet_mxe program (`emit!`). -/
inductive MxeEvent where
  | transactionSigned (signature : List Nat)
  | signatureVerified (is_valid_ct : List Nat) (nonce : Nat)
deriving DecidableEq, Repr

/-- The agentic_wallet_mxe program's `ErrorCode` enum. -/
inductive MxeErrorCode where
  | AbortedComputation
  | ClusterNotSet
deriving DecidableEq, Repr

/-- `sign_transaction_callback`: verifies the output's authenticity
proof; on success assembles the 64-byte signature as `r_encoded ++ s`
and emits `TransactionSignedEvent`; on failure returns
`AbortedComputation` and emits nothing. -/
def sign_transaction_callback
    (output : SignedComputationOutputs SignTransactionOutput) :
    Except MxeErrorCode (List MxeEvent) :=
  match verify_output output with
  | .ok out => .ok [.transactionSigned (out.r_encoded ++ out.s)]
  | .error _ => .error .AbortedComputation

/-- `verify_agent_signature_callback`: verifies the output's
authenticity proof; on success emits `SignatureVerifiedEvent` carrying
`ciphertexts[0]` and the nonce; on failure returns `AbortedComputation`
and emits nothing. -/
def verify_agent_signature_callback
    (output : SignedComputationOutputs VerifyAgentSignatureOutput) :
    Except MxeErrorCode (List MxeEvent) :=
  match verify_output output with
  | .ok o => .ok [.signatureVerified o.ciphertext0 o.nonce]
  | .error _ => .error .AbortedComputation

/-! ## Confidential request protocol state machine

Modelled from the spec (§4.4): the per-request lifecycle
`Queued -> Dispatched -> {Completed | Aborted}` with duplicate
suppression on delivery is enforced by the Arcium protocol runtime, not
by code in this repository, so it is modelled here from the spec's
words. -/

/-- Lifecycle state of one computation request. -/
inductive ReqState where
  | queued
  | dispatched
  | completed (payload : List Nat)
  | aborted (reason : Nat)
deriving DecidableEq, Repr

/-- A request state is terminal when it is `completed` or `aborted`. -/
def ReqState.isTerminal : ReqState → Bool
  | .completed _ => true
  | .aborted _ => true
  | _ => false

/-- Modelled from the spec: a `ComputationResult` delivered by the
cluster — the request identifier, the cluster's signal (`some payload`
for completion, `none` for an explicit abort) and whether its
authenticity proof verifies against the cluster's verification key. -/
structure CompResult where
  request_id : Nat
  ok_payload : Option (List Nat)
  proof_ok : Bool
deriving DecidableEq, Repr

/-- A callback invocation observable by the caller. -/
inductive CallbackMsg where
  | completedMsg (request_id : Nat) (payload : List Nat)
  | abortedMsg (request_id : Nat)
deriving DecidableEq, Repr

/-- The protocol's request ledger: each identifier maps to the state of
its in-flight request, if any. -/
def ProtocolState : Type := Nat → Option ReqState

/-- Modelled from the spec: `deliver(ComputationResult)` — redelivery
for an identifier already in a terminal state is a no-op with no
callback; otherwise an authenticity failure or an explicit abort signal
moves the request to `aborted` with one abort callback, and a verified
completion moves it to `completed` with one completion callback. -/
def deliver (st : ProtocolState) (res : CompResult) :
    ProtocolState × List CallbackMsg :=
  match st res.request_id with
  | none => (st, [])
  | some r =>
    if r.isTerminal then (st, [])
    else if res.proof_ok then
      match res.ok_payload with
      | some p =>
          (fun i => if i = res.request_id then some (.completed p) else st i,
           [.completedMsg res.request_id p])
      | none =>
          (fun i => if i = res.request_id then some (.aborted 0) else st i,
           [.abortedMsg res.request_id])
    else
      (fun i => if i = res.request_id then some (.aborted 1) else st i,
       [.abortedMsg res.request_id])

/-- The agent-state invariant maintained by the agent-vault program: the
execution flag mirrors the 80-point risk threshold and the risk score
never exceeds 100. -/
def AgentInv (s : AgentState) : Prop :=
  (s.execution_enabled = true ↔ s.risk_score ≤ 80) ∧ s.risk_score ≤ 100

/-! ## Theorems -/

/-- `checked_sub` succeeds whenever the subtrahend is bounded by the
minuend. -/
theorem checked_sub_of_le (a b : Nat) (h : b ≤ a) :
    checked_sub a b = some (a - b) := by
  unfold checked_sub
  simp [h]

/-- C1: as written, `threshold_sign` returns the constant all-zero
64-byte placeholder for every signing request — independent of the
request, of any key-share configuration, and of any subset of
contributions — so its output is not a combined signature that verifies
under Ed25519 against the shared public key. -/
theorem C1_threshold_sign_is_zero_placeholder :
    ∀ r1 r2 : SigningRequest,
      threshold_sign r1 = List.replicate 64 0 ∧
      threshold_sign r1 = threshold_sign r2 := by
  intro r1 r2
  exact ⟨rfl, rfl⟩

/-- C3: as written, `distribute_key` performs no `t`/`n` validation and
cannot reject any configuration — its return type has no error outcome
and it returns the empty share list for every input, including `t = 0`
and `t > n`. -/
theorem C3_distribute_key_never_rejects :
    ∀ key t n : Nat, distribute_key key t n = [] := by
  intro key t n
  rfl

/-- C4: as written, `execute_encrypted_trade` performs no validation and
returns the constant all-zero placeholder for every instruction — in
particular an instruction with `action = 4` or `amount = 0` is not
aborted and still yields the placeholder output. -/
theorem C4_execute_encrypted_trade_never_aborts :
    ∀ inst : TradeInstruction,
      execute_encrypted_trade inst = List.replicate 64 0 := by
  intro inst
  rfl

/-- C6: for every valid configuration `1 ≤ t ≤ n`, `distribute_key`
fails to return `n` key shares — it always returns zero shares. -/
theorem C6_distribute_key_wrong_share_count :
    ∀ key t n : Nat, 1 ≤ t → t ≤ n → (distribute_key key t n).length ≠ n := by
  intro key t n ht htn
  have hlen : (distribute_key key t n).length = 0 := rfl
  omega

/-- Witness for C6 at the configuration `t = 1`, `n = 2`. -/
theorem C6_distribute_key_wrong_share_count_witness :
    (distribute_key 5 1 2).length ≠ 2 :=
  C6_distribute_key_wrong_share_count 5 1 2 (by decide) (by decide)

/-- C9: the `Underflow` error branch is unreachable in both `withdraw`
and `gated_withdraw`: any execution that reaches the `checked_sub` has
already passed the `balance >= amount` check, so `checked_sub` returns
`some`. -/
theorem C9_underflow_branch_unreachable :
    ∀ (state : AgentState) (vault : Vault) (caller : Nat) (now : Int)
      (amount : Nat),
      withdraw vault caller amount ≠ Except.error ErrorCode.Underflow ∧
      gated_withdraw state vault caller now amount ≠
        Except.error ErrorCode.Underflow := by
  intro state vault caller now amount
  constructor
  · unfold withdraw
    split_ifs with h1 h2
    · rw [checked_sub_of_le vault.balance amount h2]
      simp
    · simp
    · simp
  · unfold gated_withdraw
    split_ifs with h1 h2 h3 h4 h5
    · rw [checked_sub_of_le vault.balance amount h5]
      simp
    all_goals simp

/-- C7: full characterization of `gated_withdraw`. It succeeds exactly
when the caller matches the stored owner, execution is enabled, the
risk score is at most 80, the time-since-last-action window check
passes and the balance covers the amount, in which case the balance is
debited and the timestamp refreshed; each failing check (in source
order) yields its corresponding error, leaving the vault untouched. -/
theorem C7_gated_withdraw_characterization :
    ∀ (state : AgentState) (vault : Vault) (caller : Nat) (now : Int)
      (amount : Nat),
      (∀ out, gated_withdraw state vault caller now amount = Except.ok out ↔
        (state.owner = caller ∧ state.execution_enabled = true ∧
         state.risk_score ≤ 80 ∧ now - state.last_action_timestamp < 3600 ∧
         amount ≤ vault.balance ∧
         out = ({ state with last_action_timestamp := now },
                { vault with balance := vault.balance - amount }))) ∧
      (state.owner ≠ caller →
        gated_withdraw state vault caller now amount =
          Except.error ErrorCode.Unauthorized) ∧
      (state.owner = caller → state.execution_enabled = false →
        gated_withdraw state vault caller now amount =
          Except.error ErrorCode.ExecutionBlocked) ∧
      (state.owner = caller → state.execution_enabled = true →
        80 < state.risk_score →
        gated_withdraw state vault caller now amount =
          Except.error ErrorCode.HighRisk) ∧
      (state.owner = caller → state.execution_enabled = true →
        state.risk_score ≤ 80 → 3600 ≤ now - state.last_action_timestamp →
        gated_withdraw state vault caller now amount =
          Except.error ErrorCode.ExecutionTimeout) ∧
      (state.owner = caller → state.execution_enabled = true →
        state.risk_score ≤ 80 → now - state.last_action_timestamp < 3600 →
        vault.balance < amount →
        gated_withdraw state vault caller now amount =
          Except.error ErrorCode.InsufficientFunds) := by
  intro state vault caller now amount
  refine ⟨?_, ?_, ?_, ?_, ?_, ?_⟩
  · intro out
    unfold gated_withdraw
    split_ifs with h1 h2 h3 h4 h5
    · rw [checked_sub_of_le vault.balance amount h5]
      simp [h1, h2, h3, h4, h5]
      tauto
    · simp_all
    · simp_all
    · simp_all
    · simp_all
    · simp_all
  · intro h
    unfold gated_withdraw
    simp [h]
  · intro h1 h2
    unfold gated_withdraw
    simp [h1, h2]
  · intro h1 h2 h3
    unfold gated_withdraw
    simp [h1, h2]
    omega
  · intro h1 h2 h3 h4
    unfold gated_withdraw
    simp [h1, h2, h3]
    omega
  · intro h1 h2 h3 h4 h5
    unfold gated_withdraw
    simp [h1, h2, h3, h4]
    omega

/-- Witness for C7: a fully authorized withdrawal of 30 from a balance
of 100 succeeds with the expected updates. -/
theorem C7_gated_withdraw_characterization_witness :
    gated_withdraw
        { owner := 9, risk_score := 50, execution_enabled := true,
          last_action_timestamp := 0 }
        { owner := 9, balance := 100 } 9 10 30 =
      Except.ok
        ({ owner := 9, risk_score := 50, execution_enabled := true,
           last_action_timestamp := 10 },
         { owner := 9, balance := 70 }) :=
  ((C7_gated_withdraw_characterization
      { owner := 9, risk_score := 50, execution_enabled := true,
        last_action_timestamp := 0 }
      { owner := 9, balance := 100 } 9 10 30).1 _).2
    ⟨rfl, rfl, by decide, by decide, by decide, rfl⟩

/-- C8: every agent state produced by `initialize_agent` satisfies the
invariant `execution_enabled ↔ risk_score ≤ 80` together with
`risk_score ≤ 100`, and `evaluate_agent_action` and `gated_withdraw`
preserve it (the former even establishes it unconditionally on
success). -/
theorem C8_agent_invariant_preserved :
    (∀ (owner : Nat) (now : Int), AgentInv (initialize_agent owner now)) ∧
    (∀ (s : AgentState) (caller r : Nat) (s2 : AgentState),
      evaluate_agent_action s caller r = Except.ok s2 → AgentInv s2) ∧
    (∀ (s : AgentState) (v : Vault) (caller : Nat) (now : Int)
        (amount : Nat) (s2 : AgentState) (v2 : Vault), AgentInv s →
      gated_withdraw s v caller now amount = Except.ok (s2, v2) →
      AgentInv s2) := by
  refine ⟨?_, ?_, ?_⟩
  · intro owner now
    constructor
    · simp [initialize_agent]
    · simp [initialize_agent]
  · intro s caller r s2 h
    unfold evaluate_agent_action at h
    split_ifs at h with h1 h2
    · simp only [Except.ok.injEq] at h
      subst h
      constructor
      · simp
      · simpa using h1
  · intro s v caller now amount s2 v2 hinv h
    unfold gated_withdraw at h
    split_ifs at h with h1 h2 h3 h4 h5
    · rw [checked_sub_of_le v.balance amount h5] at h
      simp only [Except.ok.injEq, Prod.mk.injEq] at h
      obtain ⟨hs, _⟩ := h
      subst hs
      exact hinv

/-- Witness for C8: the invariant holds after initialization, after a
risk re-evaluation to 90 (which disables execution), and after a
successful gated withdrawal. -/
theorem C8_agent_invariant_preserved_witness :
    AgentInv (initialize_agent 7 0) ∧
    AgentInv { owner := 0, risk_score := 90, execution_enabled := false,
               last_action_timestamp := 0 } ∧
    AgentInv { owner := 0, risk_score := 50, execution_enabled := true,
               last_action_timestamp := 5 } :=
  ⟨C8_agent_invariant_preserved.1 7 0,
   C8_agent_invariant_preserved.2.1
     { owner := 0, risk_score := 50, execution_enabled := true,
       last_action_timestamp := 0 } 0 90
     { owner := 0, risk_score := 90, execution_enabled := false,
       last_action_timestamp := 0 } rfl,
   C8_agent_invariant_preserved.2.2
     { owner := 0, risk_score := 50, execution_enabled := true,
       last_action_timestamp := 0 }
     { owner := 0, balance := 10 } 0 5 3
     { owner := 0, risk_score := 50, execution_enabled := true,
       last_action_timestamp := 5 }
     { owner := 0, balance := 7 } ⟨by simp, by norm_num⟩ rfl⟩

/-- C10 counterexample: with an unauthorized caller, `deposit` returns
`Unauthorized` — not `Overflow` — even though the exact sum
`balance + amount` exceeds `U64_MAX`, refuting the claimed
unconditional equivalence. -/
theorem C10_deposit_overflow_iff_counterexample :
    U64_MAX < (Vault.mk 0 U64_MAX).balance + 1 ∧
    deposit (Vault.mk 0 U64_MAX) 1 true 1 =
      Except.error (TxError.program ErrorCode.Unauthorized) ∧
    deposit (Vault.mk 0 U64_MAX) 1 true 1 ≠
      Except.error (TxError.program ErrorCode.Overflow) := by
  refine ⟨Nat.lt_succ_self _, rfl, ?_⟩
  intro hc
  simp [deposit] at hc

/-- C10 amended: for a call whose signer is the vault owner and whose
lamport transfer succeeds, `deposit` returns `Overflow` exactly when
the mathematical sum `balance + amount` exceeds `U64_MAX`; otherwise it
succeeds, the new balance is the exact sum and the owner is
unchanged. -/
theorem C10_deposit_overflow_characterization :
    ∀ (vault : Vault) (caller amount : Nat), vault.owner = caller →
      (deposit vault caller true amount =
          Except.error (TxError.program ErrorCode.Overflow) ↔
        U64_MAX < vault.balance + amount) ∧
      (vault.balance + amount ≤ U64_MAX →
        deposit vault caller true amount =
          Except.ok { vault with balance := vault.balance + amount }) ∧
      (∀ v2, deposit vault caller true amount = Except.ok v2 →
        v2.owner = vault.owner ∧ v2.balance = vault.balance + amount) := by
  intro vault caller amount howner
  unfold deposit checked_add
  simp only [howner, if_pos rfl, if_true]
  refine ⟨?_, ?_, ?_⟩
  · split_ifs with h
    · simp
      omega
    · simp
      omega
  · intro hle
    simp [hle]
  · intro v2 h
    split_ifs at h with hle
    · simp only [Except.ok.injEq] at h
      subst h
      exact ⟨rfl, rfl⟩

/-- Witness for C10 amended: an authorized deposit of 2 on a balance of
40 succeeds with balance 42. -/
theorem C10_deposit_overflow_characterization_witness :
    deposit { owner := 2, balance := 40 } 2 true 2 =
      Except.ok { owner := 2, balance := 42 } :=
  (C10_deposit_overflow_characterization
      { owner := 2, balance := 40 } 2 2 rfl).2.1 (by decide)

/-- C2: each callback accepts and emits the payload exactly when the
authenticity proof verifies (`verify_output` succeeds); when the proof
fails, the callback returns `AbortedComputation` and emits no event. -/
theorem C2_callbacks_gate_on_authenticity :
    ∀ (o1 : SignedComputationOutputs SignTransactionOutput)
      (o2 : SignedComputationOutputs VerifyAgentSignatureOutput),
      (o1.proof_ok = false →
        sign_transaction_callback o1 =
          Except.error MxeErrorCode.AbortedComputation) ∧
      (∀ evs, sign_transaction_callback o1 = Except.ok evs →
        o1.proof_ok = true ∧
        evs = [MxeEvent.transactionSigned
                (o1.payload.r_encoded ++ o1.payload.s)]) ∧
      (o2.proof_ok = false →
        verify_agent_signature_callback o2 =
          Except.error MxeErrorCode.AbortedComputation) ∧
      (∀ evs, verify_agent_signature_callback o2 = Except.ok evs →
        o2.proof_ok = true ∧
        evs = [MxeEvent.signatureVerified o2.payload.ciphertext0
                o2.payload.nonce]) := by
  intro o1 o2
  refine ⟨?_, ?_, ?_, ?_⟩
  · intro h
    simp [sign_transaction_callback, verify_output, h]
  · intro evs h
    unfold sign_transaction_callback verify_output at h
    split_ifs at h with hp
    · simp only [Except.ok.injEq] at h
      exact ⟨hp, h.symm⟩
  · intro h
    simp [verify_agent_signature_callback, verify_output, h]
  · intro evs h
    unfold verify_agent_signature_callback verify_output at h
    split_ifs at h with hp
    · simp only [Except.ok.injEq] at h
      exact ⟨hp, h.symm⟩

/-- Witness for C2: outputs with failing proofs are rejected with
`AbortedComputation` by both callbacks. -/
theorem C2_callbacks_gate_on_authenticity_witness :
    sign_transaction_callback
        { payload := { r_encoded := [1], s := [2] }, proof_ok := false } =
      Except.error MxeErrorCode.AbortedComputation ∧
    verify_agent_signature_callback
        { payload := { ciphertext0 := [0], nonce := 0 },
          proof_ok := false } =
      Except.error MxeErrorCode.AbortedComputation :=
  ⟨(C2_callbacks_gate_on_authenticity
      { payload := { r_encoded := [1], s := [2] }, proof_ok := false }
      { payload := { ciphertext0 := [0], nonce := 0 },
        proof_ok := false }).1 rfl,
   (C2_callbacks_gate_on_authenticity
      { payload := { r_encoded := [1], s := [2] }, proof_ok := false }
      { payload := { ciphertext0 := [0], nonce := 0 },
        proof_ok := false }).2.2.1 rfl⟩

/-- C5: result delivery is idempotent and the callback fires at most
once per request identifier — a delivery for an identifier already in a
terminal state is a no-op with no callback, a single delivery emits at
most one callback, and redelivering the same result after a first
delivery changes nothing and emits nothing. -/
theorem C5_deliver_at_most_once :
    ∀ (st : ProtocolState) (res : CompResult),
      (∀ r, st res.request_id = some r → r.isTerminal = true →
        deliver st res = (st, [])) ∧
      (deliver st res).2.length ≤ 1 ∧
      deliver (deliver st res).1 res = ((deliver st res).1, []) := by
  intro st res
  refine ⟨?_, ?_, ?_⟩
  · intro r h ht
    simp [deliver, h, ht]
  · rcases h : st res.request_id with _ | r
    · simp [deliver, h]
    · rcases r with _ | _ | p0 | n0 <;>
        by_cases hp : res.proof_ok <;>
          rcases hq : res.ok_payload with _ | p <;>
            simp [deliver, h, hp, hq, ReqState.isTerminal]
  · rcases h : st res.request_id with _ | r
    · simp [deliver, h]
    · rcases r with _ | _ | p0 | n0 <;>
        by_cases hp : res.proof_ok <;>
          rcases hq : res.ok_payload with _ | p <;>
            simp [deliver, h, hp, hq, ReqState.isTerminal]

/-- Witness for C5: redelivering a verified result for a request already
`completed` is a no-op with no callback. -/
theorem C5_deliver_at_most_once_witness :
    deliver (fun i => if i = 0 then some (ReqState.completed [7]) else none)
        { request_id := 0, ok_payload := some [7], proof_ok := true } =
      ((fun i => if i = 0 then some (ReqState.completed [7]) else none),
       []) :=
  (C5_deliver_at_most_once
      (fun i => if i = 0 then some (ReqState.completed [7]) else none)
      { request_id := 0, ok_payload := some [7], proof_ok := true }).1
    (ReqState.completed [7]) rfl rfl
